import Mathlib

/-!
Verification development for the InvestiSmartBot repository.

The repository computes technical-indicator feature windows for stock
prediction models.  The core code lives in
`src/Stock-Bot-Predicter-AI/models.py` (the current `BaseModel`) and
`src/Models.py` (an older `BaseModel` with a `getInfoToday` method).

Numeric values are embedded as exact rationals.  A pandas float value that
may be NaN is embedded as `Option ℚ` with `none` standing for NaN; numeric
literals such as `0.1` are embedded by their decimal value.  Pandas series
become `List (Option ℚ)`, date-indexed feature matrices become
`List (List (Option ℚ))` (rows in chronological order), and Python
exceptions become an error type threaded through `Except`, paired with the
object state at the moment the exception is raised (a raise leaves already
performed attribute assignments in place).
-/

/-- Python exception classes that appear in the embedded code paths. -/
inductive PyErr where
  | typeError
  | valueError
  | runtimeError
  | lookupError
  | nameError
  | connectionError
  | keyError
  | indexError
deriving DecidableEq, Repr

/-- A pandas float cell: `none` is NaN. -/
abbrev Val := Option ℚ

/-- A pandas Series of floats. -/
abbrev Series := List Val

/-- A 2-D numeric table, rows = trading days. -/
abbrev Mat := List (List Val)

/-- Sum of a list of rationals. -/
def qsum (l : List ℚ) : ℚ := l.sum

/-- Arithmetic mean of a list of rationals (pandas mean of the valid
entries of a rolling window; the empty case is never selected because
`min_periods` is at least 1 at every call site). -/
def qmean (l : List ℚ) : ℚ := l.sum / l.length

/-- A NaN-free list of floats viewed as a Series. -/
def lift (l : List ℚ) : Series := l.map some

/-- The valid (non-NaN) entries of a Series, in order. -/
def valids (s : Series) : List ℚ := s.filterMap id

/-- The trailing window of width `w` ending at index `t` (inclusive),
as pandas `rolling(window=w)` sees it: at the start of the series the
window is truncated to the available `t+1` positions. -/
def windowSlice (w : ℕ) (s : Series) (t : ℕ) : Series :=
  (s.take (t + 1)).drop (t + 1 - w)

/-- `series.rolling(window=w, min_periods=mp).agg f`: at each index the
aggregate of the valid entries of the trailing window, or NaN when fewer
than `mp` valid entries are available.  Pandas defaults `min_periods` to
`w` when it is not given. -/
def rollingAggregate (w mp : ℕ) (f : List ℚ → ℚ) (s : Series) : Series :=
  (List.range s.length).map (fun t =>
    if mp ≤ (valids (windowSlice w s t)).length then
      some (f (valids (windowSlice w s t)))
    else none)

/-- `series.diff()`: first difference, NaN at index 0 and wherever an
operand is NaN. -/
def diffSeries (s : Series) : Series :=
  (List.range s.length).map (fun t =>
    if t = 0 then none
    else
      match s.getD t none, s.getD (t - 1) none with
      | some a, some b => some (a - b)
      | _, _ => none)

/-- `series.abs()` elementwise, NaN preserved. -/
def absSeries (s : Series) : Series := s.map (Option.map (fun x => |x|))

/-- Multiply a Series elementwise by a scalar, NaN preserved. -/
def timesScalar (q : ℚ) (s : Series) : Series :=
  s.map (Option.map (fun x => x * q))

/-- Elementwise combination of two aligned Series; NaN in either operand
propagates (pandas arithmetic). -/
def zipOp (f : ℚ → ℚ → ℚ) (a b : Series) : Series :=
  List.zipWith (fun x y =>
    match x, y with
    | some u, some v => some (f u v)
    | _, _ => none) a b

/-- `series.iloc[-n:]`: the trailing `n` entries (the whole series when it
is shorter than `n`). -/
def tailFrom (n : ℕ) (l : List α) : List α := l.drop (l.length - n)

/-- The tail of `ewm(adjust=False).mean()` after the seed `prev`:
each output is `a * x + (1 - a) * previous output`. -/
def ewmFrom (a prev : ℚ) : List ℚ → List ℚ
  | [] => []
  | x :: rest => (a * x + (1 - a) * prev) :: ewmFrom a (a * x + (1 - a) * prev) rest

/-- `series.ewm(span=s, adjust=False).mean()`: the exponentially weighted
mean with `alpha = 2 / (s + 1)`, seeded with the first element. -/
def ewmMean (span : ℕ) : List ℚ → List ℚ
  | [] => []
  | x :: rest => x :: ewmFrom (2 / ((span : ℚ) + 1)) x rest

/-! ## General lemmas about the Series combinators -/

theorem getD_range_map {α : Type} (g : ℕ → α) (n t : ℕ) (d : α) (h : t < n) :
    ((List.range n).map g).getD t d = g t := by
  simp [List.getD_eq_getElem?_getD, List.getElem?_map, List.getElem?_range, h]

theorem getD_map_of_lt {α β : Type} (f : α → β) (d1 : α) (d2 : β) :
    ∀ (l : List α) (t : ℕ), t < l.length → (l.map f).getD t d2 = f (l.getD t d1)
  | [], t, h => absurd h (by simp)
  | x :: xs, 0, _ => rfl
  | x :: xs, t + 1, h => by
    simpa using getD_map_of_lt f d1 d2 xs t (by simpa using h)

theorem zipWith_getD_of_lt {α β γ : Type} (f : α → β → γ) (da : α) (db : β) (dc : γ) :
    ∀ (a : List α) (b : List β) (t : ℕ), t < a.length → t < b.length →
      (List.zipWith f a b).getD t dc = f (a.getD t da) (b.getD t db)
  | [], _, t, h, _ => absurd h (by simp)
  | _ :: _, [], t, _, h => absurd h (by simp)
  | x :: xs, y :: ys, 0, _, _ => rfl
  | x :: xs, y :: ys, t + 1, h1, h2 => by
    simpa using zipWith_getD_of_lt f da db dc xs ys t (by simpa using h1) (by simpa using h2)

theorem valids_lift : ∀ l : List ℚ, valids (lift l) = l
  | [] => rfl
  | x :: xs => by
    have ih := valids_lift xs
    simp only [valids, lift, List.map_cons, List.filterMap_cons, id_eq] at ih ⊢
    exact congrArg (x :: ·) ih

theorem lift_length (l : List ℚ) : (lift l).length = l.length := by simp [lift]

theorem lift_getD : ∀ (l : List ℚ) (t : ℕ), t < l.length →
    (lift l).getD t none = some (l.getD t 0)
  | [], t, h => absurd h (by simp)
  | x :: xs, 0, _ => rfl
  | x :: xs, t + 1, h => by
    simpa [lift] using lift_getD xs t (by simpa using h)

theorem windowSlice_lift (w : ℕ) (l : List ℚ) (t : ℕ) :
    windowSlice w (lift l) t = lift ((l.take (t + 1)).drop (t + 1 - w)) := by
  simp [windowSlice, lift, List.map_take, List.map_drop]

theorem valids_windowSlice_lift (w : ℕ) (l : List ℚ) (t : ℕ) :
    valids (windowSlice w (lift l) t) = (l.take (t + 1)).drop (t + 1 - w) := by
  rw [windowSlice_lift]; exact valids_lift _

theorem length_window_of_lt (l : List ℚ) (t w : ℕ) (h : t < l.length) :
    ((l.take (t + 1)).drop (t + 1 - w)).length = min (t + 1) w := by
  simp only [List.length_drop, List.length_take]; omega

theorem rollingAggregate_length (w mp : ℕ) (f : List ℚ → ℚ) (s : Series) :
    (rollingAggregate w mp f s).length = s.length := by simp [rollingAggregate]

theorem rollingAggregate_getD (w mp : ℕ) (f : List ℚ → ℚ) (s : Series) (t : ℕ)
    (h : t < s.length) :
    (rollingAggregate w mp f s).getD t none =
      if mp ≤ (valids (windowSlice w s t)).length then
        some (f (valids (windowSlice w s t)))
      else none := by
  unfold rollingAggregate; exact getD_range_map _ s.length t none h

theorem diffSeries_length (s : Series) : (diffSeries s).length = s.length := by
  simp [diffSeries]

theorem diffSeries_getD (s : Series) (t : ℕ) (h : t < s.length) :
    (diffSeries s).getD t none =
      if t = 0 then none
      else
        match s.getD t none, s.getD (t - 1) none with
        | some a, some b => some (a - b)
        | _, _ => none := by
  unfold diffSeries; exact getD_range_map _ s.length t none h

theorem tailFrom_length {α : Type} (n : ℕ) (l : List α) :
    (tailFrom n l).length = l.length - (l.length - n) := by simp [tailFrom]

theorem tailFrom_of_le {α : Type} (n : ℕ) (l : List α) (h : l.length ≤ n) :
    tailFrom n l = l := by
  simp [tailFrom, Nat.sub_eq_zero_of_le h]

theorem ewmFrom_cons (a p x : ℚ) (l : List ℚ) :
    ewmFrom a p (x :: l) = (a * x + (1 - a) * p) :: ewmFrom a (a * x + (1 - a) * p) l := rfl

theorem ewmFrom_length (a : ℚ) : ∀ (l : List ℚ) (p : ℚ), (ewmFrom a p l).length = l.length
  | [], _ => rfl
  | x :: xs, p => by simp [ewmFrom_cons, ewmFrom_length a xs]

theorem ewmMean_length (s : ℕ) (l : List ℚ) : (ewmMean s l).length = l.length := by
  cases l with
  | nil => rfl
  | cons x xs => simp [ewmMean, ewmFrom_length]

theorem ewmFrom_getD_succ (a : ℚ) :
    ∀ (l : List ℚ) (p : ℚ) (t : ℕ), t + 1 < l.length →
      (ewmFrom a p l).getD (t + 1) 0 =
        a * l.getD (t + 1) 0 + (1 - a) * (ewmFrom a p l).getD t 0
  | [], _, t, h => absurd h (by simp)
  | [x], _, t, h => absurd h (by simp)
  | x :: y :: rest, p, 0, _ => by
    rw [ewmFrom_cons, ewmFrom_cons]
    simp [List.getD_cons_succ, List.getD_cons_zero]
  | x :: y :: rest, p, t + 1, h => by
    have ih := ewmFrom_getD_succ a (y :: rest) (a * x + (1 - a) * p) t (by simpa using h)
    rw [ewmFrom_cons]
    simpa [List.getD_cons_succ] using ih

/-! ## Claim C5 -/

/-- Claim C5: for every non-empty Close series and every span s in
{12, 26, 200}, the EMA series computed by the code
(`cached_info[Close].ewm(span=s, adjust=False).mean()`, embedded as
`ewmMean`) satisfies `ema[0] = close[0]` and
`ema[t] = alpha * close[t] + (1 - alpha) * ema[t-1]` with
`alpha = 2 / (s + 1)`, for every index `t ≥ 1`. -/
theorem ewm_recurrence (s : ℕ) (close : List ℚ) (hne : close ≠ [])
    (_hs : s = 12 ∨ s = 26 ∨ s = 200) :
    (ewmMean s close).getD 0 0 = close.getD 0 0 ∧
    ∀ t : ℕ, t + 1 < close.length →
      (ewmMean s close).getD (t + 1) 0 =
        (2 / ((s : ℚ) + 1)) * close.getD (t + 1) 0 +
          (1 - 2 / ((s : ℚ) + 1)) * (ewmMean s close).getD t 0 := by
  obtain ⟨c, rest, rfl⟩ : ∃ c rest, close = c :: rest := by
    cases close with
    | nil => exact absurd rfl hne
    | cons c rest => exact ⟨c, rest, rfl⟩
  constructor
  · rfl
  · intro t ht
    cases t with
    | zero =>
      cases rest with
      | nil => simp at ht
      | cons r rs =>
        rw [show ewmMean s (c :: r :: rs) =
            c :: ewmFrom (2 / ((s : ℚ) + 1)) c (r :: rs) from rfl, ewmFrom_cons]
        simp [List.getD_cons_succ, List.getD_cons_zero]
    | succ u =>
      have hu : u + 1 < rest.length := by simpa using ht
      have key := ewmFrom_getD_succ (2 / ((s : ℚ) + 1)) rest c u hu
      rw [show ewmMean s (c :: rest) =
          c :: ewmFrom (2 / ((s : ℚ) + 1)) c rest from rfl]
      simpa [List.getD_cons_succ] using key

/-- Witness for C5 at span 12 and Close = [10, 20]. -/
theorem ewm_recurrence_witness :
    (ewmMean 12 [10, 20]).getD 0 0 = ([10, 20] : List ℚ).getD 0 0 ∧
    (ewmMean 12 [10, 20]).getD 1 0 =
      (2 / (((12 : ℕ) : ℚ) + 1)) * ([10, 20] : List ℚ).getD 1 0 +
        (1 - 2 / (((12 : ℕ) : ℚ) + 1)) * (ewmMean 12 [10, 20]).getD 0 0 := by
  have h := ewm_recurrence 12 [10, 20] (by simp) (Or.inl rfl)
  exact ⟨h.1, h.2 0 (by norm_num)⟩

/-! ## MACD, Signal Line, Histogram

`models.py` (`indicators_past_num_days`, lines 412-429) computes the
full-length EMA/MACD series, a Signal Line with `min_periods=1`, and the
Histogram, then trims each stored column with `iloc[-num_days:]`.
`Models.py` (`getInfoToday`, lines 192-206) first trims the EMA columns
with `iloc[-60:]` and computes the rolling Signal Line over the trimmed
MACD without `min_periods` (pandas then defaults it to the window). -/

/-- models.py:412-414: `macd = ema12 - ema26` on the full history. -/
def macd_series (close : List ℚ) : List ℚ :=
  List.zipWith (fun a b => a - b) (ewmMean 12 close) (ewmMean 26 close)

/-- models.py:415-416: `macd.rolling(window=9, min_periods=1).mean()`
before the trailing trim. -/
def signal_line_full (close : List ℚ) : Series :=
  rollingAggregate 9 1 qmean (lift (macd_series close))

/-- models.py:416: the stored Signal Line column (`iloc[-num_days:]`). -/
def signal_line_col (numDays : ℕ) (close : List ℚ) : Series :=
  tailFrom numDays (signal_line_full close)

/-- models.py:428: `histogram = macd - signal_line`.  The pandas
subtraction aligns on the date index: `macd` carries the full index while
`signal_line` is already trimmed, so after the final `iloc[-num_days:]`
the stored column is the elementwise difference on the trailing dates.
`histogram_full` is that elementwise difference before trimming. -/
def histogram_full (close : List ℚ) : Series :=
  zipOp (fun a b => a - b) (lift (macd_series close)) (signal_line_full close)

/-- models.py:427-429: the stored Histogram column. -/
def histogram_col (numDays : ℕ) (close : List ℚ) : Series :=
  tailFrom numDays (histogram_full close)

/-- Models.py:192-198: MACD in `getInfoToday`, as the difference of the
two EMA columns already trimmed with `iloc[-60:]`. -/
def macd_git (close : List ℚ) : List ℚ :=
  List.zipWith (fun a b => a - b)
    (tailFrom 60 (ewmMean 12 close)) (tailFrom 60 (ewmMean 26 close))

/-- Models.py:201-203: `MACD.rolling(window=span).mean().iloc[-60:]` with
`span = 9` and no `min_periods` argument, so pandas uses
`min_periods = 9`. -/
def signal_line_git (close : List ℚ) : Series :=
  tailFrom 60 (rollingAggregate 9 9 qmean (lift (macd_git close)))

/-- Models.py:206: Histogram in `getInfoToday`. -/
def histogram_git (close : List ℚ) : Series :=
  zipOp (fun a b => a - b) (lift (macd_git close)) (signal_line_git close)

theorem macd_series_length (close : List ℚ) :
    (macd_series close).length = close.length := by
  simp [macd_series, ewmMean_length]

theorem macd_git_length (close : List ℚ) :
    (macd_git close).length = min close.length 60 := by
  simp only [macd_git, List.length_zipWith, tailFrom_length, ewmMean_length]
  omega

/-! ## Claim C4 -/

/-- Claim C4 counterexample: the claim asserts that in both
`getInfoToday` and `indicators_past_num_days` the Signal Line at every
index `t < 9` is the mean of the `t+1` MACD points available so far and
is never NaN.  In `getInfoToday` (Models.py:202) the rolling mean omits
`min_periods`, so at index 0 of the Close series [10, 12] the Signal
Line is NaN (`none`), not the mean of the single available MACD point. -/
theorem signal_line_git_nan_counterexample :
    (signal_line_git [10, 12]).getD 0 none = none ∧
    (signal_line_git [10, 12]).getD 0 none ≠
      some (qmean ((macd_git [10, 12]).take 1)) := by
  have hlen : (macd_git [10, 12]).length = 2 := by
    rw [macd_git_length]; rfl
  have hR : (rollingAggregate 9 9 qmean (lift (macd_git [10, 12]))).length ≤ 60 := by
    rw [rollingAggregate_length, lift_length, hlen]; omega
  have h : (signal_line_git [10, 12]).getD 0 none = none := by
    rw [signal_line_git, tailFrom_of_le _ _ hR,
      rollingAggregate_getD 9 9 qmean _ 0 (by rw [lift_length, hlen]; omega),
      valids_windowSlice_lift]
    rw [if_neg]
    rw [length_window_of_lt _ _ _ (by omega : (0 : ℕ) < (macd_git [10, 12]).length)]
    omega
  exact ⟨h, by rw [h]; exact fun hc => Option.noConfusion hc⟩

/-- Claim C4 (amended): for every Close series,
MACD = EMA(12) - EMA(26) and Histogram = MACD - Signal Line; in
`indicators_past_num_days` (models.py:416) the Signal Line is the rolling
mean of MACD over 9 periods with `min_periods = 1`, so for `t < 9` it is
the mean of the `t+1` MACD points available so far and is never NaN; but
in `getInfoToday` (Models.py:202) the rolling mean uses the pandas
default `min_periods = 9`, so the Signal Line is NaN at every index
`t < 8`. -/
theorem signal_line_min_periods_amended (close : List ℚ) (t : ℕ) (ht : t < close.length) :
    (t < 9 → (signal_line_full close).getD t none =
      some (qmean ((macd_series close).take (t + 1)))) ∧
    (signal_line_full close).getD t none =
      some (qmean (((macd_series close).take (t + 1)).drop (t + 1 - 9))) ∧
    (macd_series close).getD t 0 =
      (ewmMean 12 close).getD t 0 - (ewmMean 26 close).getD t 0 ∧
    (histogram_full close).getD t none =
      some ((macd_series close).getD t 0 -
        qmean (((macd_series close).take (t + 1)).drop (t + 1 - 9))) ∧
    (t < 8 → (signal_line_git close).getD t none = none) := by
  have hm : (macd_series close).length = close.length := macd_series_length close
  have htm : t < (macd_series close).length := by omega
  have hsig : (signal_line_full close).getD t none =
      some (qmean (((macd_series close).take (t + 1)).drop (t + 1 - 9))) := by
    rw [signal_line_full,
      rollingAggregate_getD 9 1 qmean _ t (by rw [lift_length]; exact htm),
      valids_windowSlice_lift, if_pos]
    rw [length_window_of_lt _ _ _ htm]; omega
  refine ⟨?_, hsig, ?_, ?_, ?_⟩
  · intro h9
    rw [hsig]
    have : t + 1 - 9 = 0 := by omega
    rw [this, List.drop_zero]
  · exact zipWith_getD_of_lt _ 0 0 0 _ _ t
      (by rw [ewmMean_length]; exact ht) (by rw [ewmMean_length]; exact ht)
  · rw [histogram_full, zipOp,
      zipWith_getD_of_lt _ none none none _ _ t
        (by rw [lift_length]; exact htm)
        (by rw [signal_line_full, rollingAggregate_length, lift_length]; exact htm),
      lift_getD _ t htm, hsig]
  · intro h8
    have hg : (macd_git close).length = min close.length 60 := macd_git_length close
    have htg : t < (macd_git close).length := by omega
    have hR : (rollingAggregate 9 9 qmean (lift (macd_git close))).length ≤ 60 := by
      rw [rollingAggregate_length, lift_length, hg]; omega
    rw [signal_line_git, tailFrom_of_le _ _ hR,
      rollingAggregate_getD 9 9 qmean _ t (by rw [lift_length]; exact htg),
      valids_windowSlice_lift, if_neg]
    rw [length_window_of_lt _ _ _ htg]; omega

/-- Witness for the amended C4 at Close = [10, 11, 12], index 1. -/
theorem signal_line_min_periods_witness :
    (signal_line_full [10, 11, 12]).getD 1 none =
      some (qmean ((macd_series [10, 11, 12]).take 2)) :=
  (signal_line_min_periods_amended [10, 11, 12] 1 (by norm_num)).1 (by norm_num)

/-! ## RSI and TRAMA

models.py:434-451 (`indicators_past_num_days`) and Models.py:212-226
(`getInfoToday`).  In models.py line 434 rebinds `change` to the trimmed
`Close.diff().iloc[-num_days:]`, and the RSI block reads that trimmed
series; its rolling means (lines 443-444) pass no `min_periods`, so pandas
uses the window size 14.  Models.py passes `min_periods=1` (lines
218-219).  Python evaluates `NaN > 0` and `NaN < 0` as False, so the
gain/loss `apply` maps a NaN change to 0.  Division of the rolling means
is embedded with the total division of ℚ; the code applies the RS and RSI
formulas uniformly, with no branch on a zero Avg Loss. -/

/-- The gain map `lambda x: x if x > 0 else 0` applied to one cell. -/
def gainPart (o : Val) : ℚ :=
  match o with
  | some x => if 0 < x then x else 0
  | none => 0

/-- The loss map `lambda x: abs(x) if x < 0 else 0` applied to one cell. -/
def lossPart (o : Val) : ℚ :=
  match o with
  | some x => if x < 0 then |x| else 0
  | none => 0

/-- `change.apply(lambda x: x if x > 0 else 0)`: never NaN. -/
def gainSeries (c : Series) : Series := lift (c.map gainPart)

/-- `change.apply(lambda x: abs(x) if x < 0 else 0)`: never NaN. -/
def lossSeries (c : Series) : Series := lift (c.map lossPart)

/-- models.py:434: `change = Close.diff().iloc[-num_days:]`. -/
def change_models (close : List ℚ) (numDays : ℕ) : Series :=
  tailFrom numDays (diffSeries (lift close))

/-- models.py:441-443: `gain.rolling(window=14).mean().iloc[-num_days:]`
with no `min_periods` argument. -/
def avg_gain_models (close : List ℚ) (numDays : ℕ) : Series :=
  tailFrom numDays
    (rollingAggregate 14 14 qmean (gainSeries (change_models close numDays)))

/-- models.py:442-444: the Avg Loss column. -/
def avg_loss_models (close : List ℚ) (numDays : ℕ) : Series :=
  tailFrom numDays
    (rollingAggregate 14 14 qmean (lossSeries (change_models close numDays)))

/-- models.py:445: `relative_strength = avg_gain / avg_loss`. -/
def rs_models (close : List ℚ) (numDays : ℕ) : Series :=
  zipOp (fun g l => g / l) (avg_gain_models close numDays) (avg_loss_models close numDays)

/-- models.py:446: `RSI = 100 - (100 / (1 + relative_strength))`. -/
def rsi_models (close : List ℚ) (numDays : ℕ) : Series :=
  (rs_models close numDays).map (Option.map (fun r => 100 - 100 / (1 + r)))

/-- Models.py:212: `Change = Close.diff().iloc[-60:]`. -/
def change_git (close : List ℚ) : Series :=
  tailFrom 60 (diffSeries (lift close))

/-- Models.py:216-218: `Gain.rolling(window=14, min_periods=1).mean().iloc[-60:]`. -/
def avg_gain_git (close : List ℚ) : Series :=
  tailFrom 60 (rollingAggregate 14 1 qmean (gainSeries (change_git close)))

/-- Models.py:217-219: the Avg Loss column. -/
def avg_loss_git (close : List ℚ) : Series :=
  tailFrom 60 (rollingAggregate 14 1 qmean (lossSeries (change_git close)))

/-- Models.py:220: `RS = Avg Gain / Avg Loss`. -/
def rs_git (close : List ℚ) : Series :=
  zipOp (fun g l => g / l) (avg_gain_git close) (avg_loss_git close)

/-- Models.py:221: `RSI = 100 - (100 / (1 + RS))`. -/
def rsi_git (close : List ℚ) : Series :=
  (rs_git close).map (Option.map (fun r => 100 - 100 / (1 + r)))

/-- models.py:437-439: `Momentum = change.rolling(window=10,
min_periods=1).sum().iloc[-num_days:]`. -/
def momentum_models (close : List ℚ) (numDays : ℕ) : Series :=
  tailFrom numDays (rollingAggregate 10 1 qsum (change_models close numDays))

/-- models.py:449: `volatility = Close.diff().abs().iloc[-num_days:]` —
the pointwise absolute first difference, not a rolling aggregate. -/
def volatility_models (close : List ℚ) (numDays : ℕ) : Series :=
  tailFrom numDays (absSeries (diffSeries (lift close)))

/-- models.py:450: `trama = Close.rolling(window=14).mean().iloc[-num_days:]`. -/
def trama_mean_models (close : List ℚ) (numDays : ℕ) : Series :=
  tailFrom numDays (rollingAggregate 14 14 qmean (lift close))

/-- models.py:451: `TRAMA = trama + (volatility * 0.1)`.  Models.py:223-226
is the same computation with `num_days = 60` and window `period = 14`. -/
def trama_models (close : List ℚ) (numDays : ℕ) : Series :=
  zipOp (fun a b => a + b) (trama_mean_models close numDays)
    (timesScalar (1 / 10) (volatility_models close numDays))

theorem gainSeries_length (c : Series) : (gainSeries c).length = c.length := by
  simp [gainSeries, lift]

theorem lossSeries_length (c : Series) : (lossSeries c).length = c.length := by
  simp [lossSeries, lift]

theorem absSeries_length (s : Series) : (absSeries s).length = s.length := by
  simp [absSeries]

theorem timesScalar_length (q : ℚ) (s : Series) : (timesScalar q s).length = s.length := by
  simp [timesScalar]

theorem zipOp_length (f : ℚ → ℚ → ℚ) (a b : Series) :
    (zipOp f a b).length = min a.length b.length := by
  simp [zipOp]

theorem change_models_eq (close : List ℚ) (n : ℕ) (hn : close.length ≤ n) :
    change_models close n = diffSeries (lift close) := by
  rw [change_models, tailFrom_of_le]
  rw [diffSeries_length, lift_length]; exact hn

theorem change_git_eq (close : List ℚ) (h60 : close.length ≤ 60) :
    change_git close = diffSeries (lift close) := by
  rw [change_git, tailFrom_of_le]
  rw [diffSeries_length, lift_length]; exact h60

/-! ## Claim C6 -/

/-- Claim C6 counterexample: the claim asserts Avg Gain is a 14-period
rolling mean with `min_periods = 1` (also in `indicators_past_num_days`).
In models.py:443 the rolling mean omits `min_periods`, so for the Close
series [10, 12] with `num_days = 2` the Avg Gain at index 1 is NaN
(`none`), not the mean of the two available gain points. -/
theorem avg_gain_no_min_periods_counterexample :
    (avg_gain_models [10, 12] 2).getD 1 none = none ∧
    (avg_gain_models [10, 12] 2).getD 1 none ≠
      some (qmean (((change_models [10, 12] 2).map gainPart).take 2)) := by
  have hc : change_models [10, 12] 2 = diffSeries (lift [10, 12]) :=
    change_models_eq _ _ (by norm_num)
  have hclen : (change_models [10, 12] 2).length = 2 := by
    rw [hc, diffSeries_length, lift_length]; rfl
  have hglen : (gainSeries (change_models [10, 12] 2)).length = 2 := by
    rw [gainSeries_length, hclen]
  have hR : (rollingAggregate 14 14 qmean (gainSeries (change_models [10, 12] 2))).length ≤ 2 := by
    rw [rollingAggregate_length, hglen]
  have h : (avg_gain_models [10, 12] 2).getD 1 none = none := by
    rw [avg_gain_models, tailFrom_of_le _ _ hR,
      rollingAggregate_getD 14 14 qmean _ 1 (by rw [hglen]; omega)]
    rw [gainSeries, valids_windowSlice_lift, if_neg]
    rw [length_window_of_lt _ _ _
      (by rw [List.length_map, hclen]; omega :
        1 < ((change_models [10, 12] 2).map gainPart).length)]
    omega
  exact ⟨h, by rw [h]; exact fun hcon => Option.noConfusion hcon⟩

/-- Claim C6 (amended): the Change is split into Gain (positive part)
and Loss (absolute negative part, with a NaN change mapping to 0), and
RSI = 100 - 100/(1 + Avg Gain / Avg Loss) is applied uniformly with no
special case for a zero Avg Loss; in `getInfoToday` (Models.py:218-219)
the Avg Gain / Avg Loss rolling means do use `min_periods = 1` as
claimed, but in `indicators_past_num_days` (models.py:443-444) they omit
`min_periods`, so every index with fewer than 14 points is NaN. -/
theorem rsi_pipeline_amended (close : List ℚ) (n t : ℕ)
    (h60 : close.length ≤ 60) (hn : close.length ≤ n) (ht : t < close.length) :
    (gainSeries (change_git close)).getD t none =
      some (gainPart ((change_git close).getD t none)) ∧
    (lossSeries (change_git close)).getD t none =
      some (lossPart ((change_git close).getD t none)) ∧
    (avg_gain_git close).getD t none =
      some (qmean ((((change_git close).map gainPart).take (t + 1)).drop (t + 1 - 14))) ∧
    (avg_loss_git close).getD t none =
      some (qmean ((((change_git close).map lossPart).take (t + 1)).drop (t + 1 - 14))) ∧
    (rsi_git close).getD t none =
      some (100 - 100 / (1 +
        qmean ((((change_git close).map gainPart).take (t + 1)).drop (t + 1 - 14)) /
        qmean ((((change_git close).map lossPart).take (t + 1)).drop (t + 1 - 14)))) ∧
    (t < 13 → (avg_gain_models close n).getD t none = none) := by
  have hclen : (change_git close).length = close.length := by
    rw [change_git_eq close h60, diffSeries_length, lift_length]
  have htc : t < (change_git close).length := by omega
  have hgain : (avg_gain_git close).getD t none =
      some (qmean ((((change_git close).map gainPart).take (t + 1)).drop (t + 1 - 14))) := by
    have hR : (rollingAggregate 14 1 qmean (gainSeries (change_git close))).length ≤ 60 := by
      rw [rollingAggregate_length, gainSeries_length, hclen]; exact h60
    rw [avg_gain_git, tailFrom_of_le _ _ hR,
      rollingAggregate_getD 14 1 qmean _ t (by rw [gainSeries_length]; exact htc),
      gainSeries, valids_windowSlice_lift, if_pos]
    rw [length_window_of_lt _ _ _ (by rw [List.length_map]; exact htc :
      t < ((change_git close).map gainPart).length)]
    omega
  have hloss : (avg_loss_git close).getD t none =
      some (qmean ((((change_git close).map lossPart).take (t + 1)).drop (t + 1 - 14))) := by
    have hR : (rollingAggregate 14 1 qmean (lossSeries (change_git close))).length ≤ 60 := by
      rw [rollingAggregate_length, lossSeries_length, hclen]; exact h60
    rw [avg_loss_git, tailFrom_of_le _ _ hR,
      rollingAggregate_getD 14 1 qmean _ t (by rw [lossSeries_length]; exact htc),
      lossSeries, valids_windowSlice_lift, if_pos]
    rw [length_window_of_lt _ _ _ (by rw [List.length_map]; exact htc :
      t < ((change_git close).map lossPart).length)]
    omega
  refine ⟨?_, ?_, hgain, hloss, ?_, ?_⟩
  · rw [gainSeries, lift_getD _ t (by rw [List.length_map]; exact htc),
      getD_map_of_lt gainPart none 0 _ t htc]
  · rw [lossSeries, lift_getD _ t (by rw [List.length_map]; exact htc),
      getD_map_of_lt lossPart none 0 _ t htc]
  · have hrs : (rs_git close).getD t none =
        some (qmean ((((change_git close).map gainPart).take (t + 1)).drop (t + 1 - 14)) /
          qmean ((((change_git close).map lossPart).take (t + 1)).drop (t + 1 - 14))) := by
      rw [rs_git, zipOp,
        zipWith_getD_of_lt _ none none none _ _ t
          (by rw [avg_gain_git, tailFrom_length, rollingAggregate_length,
            gainSeries_length, hclen]; omega)
          (by rw [avg_loss_git, tailFrom_length, rollingAggregate_length,
            lossSeries_length, hclen]; omega),
        hgain, hloss]
    rw [rsi_git,
      getD_map_of_lt (Option.map (fun r => 100 - 100 / (1 + r))) none none _ t
        (by rw [rs_git, zipOp_length, avg_gain_git, avg_loss_git, tailFrom_length,
          tailFrom_length, rollingAggregate_length, rollingAggregate_length,
          gainSeries_length, lossSeries_length, hclen]; omega),
      hrs]
    rfl
  · intro h13
    have hcm : change_models close n = diffSeries (lift close) := change_models_eq close n hn
    have hcmlen : (change_models close n).length = close.length := by
      rw [hcm, diffSeries_length, lift_length]
    have hR : (rollingAggregate 14 14 qmean (gainSeries (change_models close n))).length ≤ n := by
      rw [rollingAggregate_length, gainSeries_length, hcmlen]; exact hn
    rw [avg_gain_models, tailFrom_of_le _ _ hR,
      rollingAggregate_getD 14 14 qmean _ t (by rw [gainSeries_length, hcmlen]; exact ht),
      gainSeries, valids_windowSlice_lift, if_neg]
    rw [length_window_of_lt _ _ _ (by rw [List.length_map, hcmlen]; exact ht :
      t < ((change_models close n).map gainPart).length)]
    omega

/-- Witness for the amended C6 at Close = [1, 2, 3], num_days = 3, index 1. -/
theorem rsi_pipeline_witness :
    (avg_gain_models [1, 2, 3] 3).getD 1 none = none :=
  (rsi_pipeline_amended [1, 2, 3] 3 1 (by norm_num) (by norm_num)
    (by norm_num)).2.2.2.2.2 (by norm_num)

/-! ## Claim C7 -/

theorem trama_models_getD (close : List ℚ) (n t : ℕ)
    (hn : close.length ≤ n) (h13 : 13 ≤ t) (ht : t < close.length) :
    (trama_models close n).getD t none =
      some (qmean ((close.take (t + 1)).drop (t + 1 - 14)) +
        |close.getD t 0 - close.getD (t - 1) 0| * (1 / 10)) := by
  have hAlen : (rollingAggregate 14 14 qmean (lift close)).length ≤ n := by
    rw [rollingAggregate_length, lift_length]; exact hn
  have hBlen : (absSeries (diffSeries (lift close))).length ≤ n := by
    rw [absSeries_length, diffSeries_length, lift_length]; exact hn
  have htm : (trama_mean_models close n).getD t none =
      some (qmean ((close.take (t + 1)).drop (t + 1 - 14))) := by
    rw [trama_mean_models, tailFrom_of_le _ _ hAlen,
      rollingAggregate_getD 14 14 qmean _ t (by rw [lift_length]; exact ht),
      valids_windowSlice_lift, if_pos]
    rw [length_window_of_lt _ _ _ ht]; omega
  have hdiff : (diffSeries (lift close)).getD t none =
      some (close.getD t 0 - close.getD (t - 1) 0) := by
    rw [diffSeries_getD _ t (by rw [lift_length]; exact ht)]
    rw [if_neg (by omega : ¬ t = 0), lift_getD _ t ht, lift_getD _ (t - 1) (by omega)]
  have hvol : (volatility_models close n).getD t none =
      some (|close.getD t 0 - close.getD (t - 1) 0|) := by
    rw [volatility_models, tailFrom_of_le _ _ hBlen, absSeries,
      getD_map_of_lt (Option.map (fun x => |x|)) none none _ t
        (by rw [diffSeries_length, lift_length]; exact ht),
      hdiff]
    rfl
  have hts : (timesScalar (1 / 10) (volatility_models close n)).getD t none =
      some (|close.getD t 0 - close.getD (t - 1) 0| * (1 / 10)) := by
    rw [timesScalar,
      getD_map_of_lt (Option.map (fun x => x * (1 / 10))) none none _ t
        (by rw [volatility_models, tailFrom_of_le _ _ hBlen, absSeries_length,
          diffSeries_length, lift_length]; exact ht),
      hvol]
    rfl
  rw [trama_models, zipOp,
    zipWith_getD_of_lt _ none none none _ _ t
      (by rw [trama_mean_models, tailFrom_of_le _ _ hAlen, rollingAggregate_length,
        lift_length]; exact ht)
      (by rw [timesScalar_length, volatility_models, tailFrom_of_le _ _ hBlen,
        absSeries_length, diffSeries_length, lift_length]; exact ht),
    htm, hts]

/-- Claim C7 counterexample: the claim asserts that the volatility term of
TRAMA is aggregated over the same trailing 14-period window.  At the
Close series below (twelve 10s, then 12, 12) and index 14 the code value
(models.py:447-451) is 72/7, while the claimed value with the volatility
term aggregated over the 14-period window is 721/70; they differ. -/
theorem trama_pointwise_counterexample :
    (trama_models [10, 10, 10, 10, 10, 10, 10, 10, 10, 10, 10, 10, 10, 12, 12] 15).getD 14 none
      = some (72 / 7) ∧
    some (qmean ((([10, 10, 10, 10, 10, 10, 10, 10, 10, 10, 10, 10, 10, 12, 12] :
          List ℚ).take 15).drop 1) +
        qmean (valids (windowSlice 14
          (absSeries (diffSeries
            (lift [10, 10, 10, 10, 10, 10, 10, 10, 10, 10, 10, 10, 10, 12, 12]))) 14)) *
          (1 / 10))
      = some ((721 : ℚ) / 70) ∧
    (72 / 7 : ℚ) ≠ 721 / 70 := by
  refine ⟨?_, ?_, by norm_num⟩
  · rw [trama_models_getD _ 15 14 (by norm_num) (by norm_num) (by norm_num)]
    norm_num [qmean, List.sum_cons, List.sum_nil]
  · norm_num [qmean, windowSlice, valids, absSeries, diffSeries, lift,
      List.range_succ, List.filterMap_cons, id_eq, List.sum_cons, List.sum_nil,
      List.getD_cons_zero, List.getD_cons_succ]

/-- Claim C7 (amended): for every Close series and every index where the
column is defined (at least 14 points available), TRAMA equals the
14-period rolling mean of Close plus 0.1 times the pointwise absolute
first difference of Close at that index (models.py:447-451 and
Models.py:223-226); the volatility term is not aggregated over the
window. -/
theorem trama_formula_amended (close : List ℚ) (n t : ℕ)
    (hn : close.length ≤ n) (h13 : 13 ≤ t) (ht : t < close.length) :
    (trama_models close n).getD t none =
      some (qmean ((close.take (t + 1)).drop (t + 1 - 14)) +
        |close.getD t 0 - close.getD (t - 1) 0| * (1 / 10)) :=
  trama_models_getD close n t hn h13 ht

/-- Witness for the amended C7 at a constant 14-point Close series. -/
theorem trama_formula_witness :
    (trama_models [10, 10, 10, 10, 10, 10, 10, 10, 10, 10, 10, 10, 10, 10] 14).getD 13 none =
      some (qmean ((([10, 10, 10, 10, 10, 10, 10, 10, 10, 10, 10, 10, 10, 10] :
          List ℚ).take 14).drop 0) +
        |([10, 10, 10, 10, 10, 10, 10, 10, 10, 10, 10, 10, 10, 10] : List ℚ).getD 13 0 -
          ([10, 10, 10, 10, 10, 10, 10, 10, 10, 10, 10, 10, 10, 10] : List ℚ).getD 12 0| *
          (1 / 10)) := by
  simpa using trama_formula_amended [10, 10, 10, 10, 10, 10, 10, 10, 10, 10, 10, 10, 10, 10]
    14 13 (by norm_num) (by norm_num) (by norm_num)

/-! ## Claim C8 -/

/-- models.py:496-500 and Models.py:266-268: scaling one value with the
parameters `low` (the column minimum) and `diffq` (the column range):
`(value - low) / diff`. -/
def scale_value (low diffq v : ℚ) : ℚ := (v - low) / diffq

/-- Models.py:266: `low = min(self.data[column])` over a nonempty column. -/
def fit_min : List ℚ → ℚ
  | [] => 0
  | x :: xs => xs.foldl min x

/-- Models.py:266: `high = max(self.data[column])` over a nonempty column. -/
def fit_max : List ℚ → ℚ
  | [] => 0
  | x :: xs => xs.foldl max x

/-- Claim C8: scaling is the affine map value ↦ (value - min) / range:
for every column with nonzero range, applying the fitted (min, range)
parameters maps the column minimum to 0 and the column maximum to 1; in
particular with min = 10 and range = 10, value 15 maps to 1/2, value 10
to 0 and value 20 to 1. -/
theorem scaling_affine (col : List ℚ) (h : fit_max col - fit_min col ≠ 0) :
    scale_value (fit_min col) (fit_max col - fit_min col) (fit_min col) = 0 ∧
    scale_value (fit_min col) (fit_max col - fit_min col) (fit_max col) = 1 ∧
    scale_value 10 10 15 = 1 / 2 ∧
    scale_value 10 10 10 = 0 ∧
    scale_value 10 10 20 = 1 := by
  refine ⟨?_, ?_, by norm_num [scale_value], by norm_num [scale_value],
    by norm_num [scale_value]⟩
  · simp [scale_value]
  · rw [scale_value]; exact div_self h

/-- Witness for C8 at the column [10, 20]. -/
theorem scaling_affine_witness :
    scale_value (fit_min [10, 20]) (fit_max [10, 20] - fit_min [10, 20]) (fit_min [10, 20]) = 0 ∧
    scale_value (fit_min [10, 20]) (fit_max [10, 20] - fit_min [10, 20]) (fit_max [10, 20]) = 1 ∧
    scale_value 10 10 15 = 1 / 2 ∧
    scale_value 10 10 10 = 0 ∧
    scale_value 10 10 20 = 1 :=
  scaling_affine [10, 20] (by norm_num [fit_max, fit_min, max_def, min_def])

/-! ## Claim C9

models.py:472-490.  `get_earnings_history` (get_info.py, not in src/) is
the external earnings collaborator; per the spec it returns the list of
known earnings announcement dates together with the surprise magnitudes,
and the companion code in Models.py:249-257 compares those dates against
`strftime` date strings, so the dates are date strings.  Inside the
models.py loop the membership test uses the string `end_date`, while the
lookup key is the datetime object
`end_datetime - relativedelta(days=num_days)` computed once before the
loop (models.py:477) and never advanced; a Python datetime never equals a
date string. -/

/-- A Python value appearing in the date lists: a date string or a
datetime (represented by its ordinal day). -/
inductive PyVal where
  | str (s : String)
  | dt (z : ℤ)
deriving DecidableEq, Repr

/-- `list.index(x)`: position of the first match, `none` when Python
would raise ValueError. -/
def listIdx {α : Type} [DecidableEq α] : List α → α → Option ℕ
  | [], _ => none
  | x :: xs, a => if x = a then some 0 else (listIdx xs a).map (· + 1)

theorem listIdx_eq_none_of_not_mem {α : Type} [DecidableEq α] :
    ∀ (l : List α) (a : α), a ∉ l → listIdx l a = none
  | [], _, _ => rfl
  | x :: xs, a, h => by
    have h1 : ¬ x = a := fun hx => h (by rw [← hx]; exact List.mem_cons_self x xs)
    have h2 : a ∉ xs := fun hx => h (List.mem_cons_of_mem x hx)
    rw [listIdx, if_neg h1, listIdx_eq_none_of_not_mem xs a h2]
    rfl

theorem not_dt_mem_of_str (dates : List PyVal)
    (hstr : ∀ v ∈ dates, ∃ s, v = PyVal.str s) (z : ℤ) : PyVal.dt z ∉ dates :=
  fun hm => by obtain ⟨s, hs⟩ := hstr _ hm; exact PyVal.noConfusion hs

/-- models.py:484-490: the per-day loop of the `earning diffs` block,
iterated `num_days` times; `low` and `diffq` are the persisted earnings
scaler parameters (models.py:481-482). -/
def earn_diffs_loop (earningsDates : List PyVal) (earningsDiff : List ℚ)
    (endDate lookupKey : PyVal) (low diffq : ℚ) :
    ℕ → List ℚ → Except PyErr (List ℚ)
  | 0, acc => .ok acc
  | m + 1, acc =>
    if endDate ∈ earningsDates then
      match listIdx earningsDates lookupKey with
      | none => .error .valueError
      | some i =>
        match earningsDiff.get? i with
        | none => .error .indexError
        | some d =>
          earn_diffs_loop earningsDates earningsDiff endDate lookupKey low diffq m
            (acc ++ [(d - low) / diffq])
    else
      earn_diffs_loop earningsDates earningsDiff endDate lookupKey low diffq m (acc ++ [0])

/-- models.py:472-490: the `earning diffs` column.  The membership test
uses `end_date` (a string) and the lookup key is the fixed datetime
`end_datetime - relativedelta(days=num_days)`. -/
def earning_diffs (earningsDates : List PyVal) (earningsDiff : List ℚ)
    (endDate lookupKey : PyVal) (low diffq : ℚ) (numDays : ℕ) : Except PyErr (List ℚ) :=
  earn_diffs_loop earningsDates earningsDiff endDate lookupKey low diffq numDays []

/-- Models.py:242-258 (getInfoToday): `end_date` has been rebound to a
datetime (Models.py:180/185), the candidate dates are the preceding
`strftime` date strings, the membership test still uses `end_date`, and
the matched branch appends the unscaled surprise. -/
def earning_diffs_git (earningsDates : List PyVal) (earningsDiff : List ℚ)
    (endDt : ℤ) : List String → List ℚ → Except PyErr (List ℚ)
  | [], acc => .ok acc
  | d :: rest, acc =>
    if PyVal.dt endDt ∈ earningsDates then
      match listIdx earningsDates (PyVal.str d) with
      | none => .error .valueError
      | some i =>
        match earningsDiff.get? i with
        | none => .error .indexError
        | some v => earning_diffs_git earningsDates earningsDiff endDt rest (acc ++ [v])
    else earning_diffs_git earningsDates earningsDiff endDt rest (acc ++ [0])

theorem earn_diffs_loop_zeros (earningsDates : List PyVal) (earningsDiff : List ℚ)
    (endDate lookupKey : PyVal) (low diffq : ℚ) (hnm : endDate ∉ earningsDates) :
    ∀ (n : ℕ) (acc : List ℚ),
      earn_diffs_loop earningsDates earningsDiff endDate lookupKey low diffq n acc =
        .ok (acc ++ List.replicate n 0)
  | 0, acc => by simp [earn_diffs_loop]
  | m + 1, acc => by
    rw [earn_diffs_loop, if_neg hnm,
      earn_diffs_loop_zeros earningsDates earningsDiff endDate lookupKey low diffq hnm m
        (acc ++ [0])]
    simp [List.replicate_succ]

theorem earning_diffs_git_zeros (earningsDates : List PyVal) (earningsDiff : List ℚ)
    (endDt : ℤ) (hnm : PyVal.dt endDt ∉ earningsDates) :
    ∀ (gd : List String) (acc : List ℚ),
      earning_diffs_git earningsDates earningsDiff endDt gd acc =
        .ok (acc ++ List.replicate gd.length 0)
  | [], acc => by simp [earning_diffs_git]
  | d :: rest, acc => by
    rw [earning_diffs_git, if_neg hnm,
      earning_diffs_git_zeros earningsDates earningsDiff endDt hnm rest (acc ++ [0])]
    simp [List.replicate_succ]

/-- Claim C9 counterexample: with the single known earnings date
2023-06-02 carrying surprise 5 (scaler min 0, range 1), a 3-day trailing
window whose end date 2023-06-05 is absent from the earnings dates, and
the window covering 2023-06-02, the code (models.py:484-490) emits 0 for
every window day — including the day whose date is a known earnings
date, where the claim requires the scaled surprise (5 - 0) / 1 ≠ 0. -/
theorem earning_diffs_counterexample :
    earning_diffs [PyVal.str "2023-06-02"] [5] (PyVal.str "2023-06-05") (PyVal.dt 0) 0 1 3
      = .ok [0, 0, 0] ∧
    ((5 : ℚ) - 0) / 1 ≠ 0 :=
  ⟨rfl, by norm_num⟩

/-- Claim C9 (amended): the membership test and the index lookup are not
performed on the same per-window date.  models.py tests membership of the
fixed `end_date` and looks up the fixed datetime key
`end_date - num_days`: when `end_date` is not among the earnings dates,
every window day emits 0 regardless of the per-window dates; when it is,
the datetime key matches no date string and the loop raises ValueError.
In getInfoToday (Models.py:253-254) the membership test compares the
datetime `end_date` against date strings, so the column is always all
zeros. -/
theorem earning_diffs_amended (dates : List PyVal) (diffs : List ℚ)
    (e : String) (z : ℤ) (low dq : ℚ) (n : ℕ) (gitDates : List String) (endDt : ℤ)
    (hstr : ∀ v ∈ dates, ∃ s, v = PyVal.str s) :
    (PyVal.str e ∉ dates →
      earning_diffs dates diffs (PyVal.str e) (PyVal.dt z) low dq n =
        .ok (List.replicate n 0)) ∧
    (PyVal.str e ∈ dates → 0 < n →
      earning_diffs dates diffs (PyVal.str e) (PyVal.dt z) low dq n =
        .error .valueError) ∧
    earning_diffs_git dates diffs endDt gitDates [] =
      .ok (List.replicate gitDates.length 0) := by
  refine ⟨?_, ?_, ?_⟩
  · intro hnm
    rw [earning_diffs, earn_diffs_loop_zeros dates diffs _ _ low dq hnm n []]
    simp
  · intro hm hn
    obtain ⟨m, rfl⟩ : ∃ m, n = m + 1 := ⟨n - 1, by omega⟩
    rw [earning_diffs, earn_diffs_loop, if_pos hm,
      listIdx_eq_none_of_not_mem dates _ (not_dt_mem_of_str dates hstr z)]
  · rw [earning_diffs_git_zeros dates diffs endDt (not_dt_mem_of_str dates hstr endDt)
      gitDates []]
    simp

/-- Witness for the amended C9: end date absent from the earnings dates
yields an all-zero column. -/
theorem earning_diffs_amended_witness :
    earning_diffs [PyVal.str "2023-01-03"] [2] (PyVal.str "2023-02-01") (PyVal.dt 5) 0 1 2
      = .ok (List.replicate 2 0) :=
  (earning_diffs_amended [PyVal.str "2023-01-03"] [2] "2023-02-01" 5 0 1 2 [] 0
    (by intro v hv; simp at hv; exact ⟨"2023-01-03", hv⟩)).1 (by decide)

/-! ## Rolling cache state (models.py:543-631)

`self.cached_info` is `None`, a pandas DataFrame (online mode) or the
dict loaded from `Stocks/<symbol>/info.json` (offline mode).  The json
maps `Dates` to the trading date strings and each indicator key to a
column of values.  The file is built by getInfo.py, which is not under
src/; modelled from the spec: the snapshot stores previously computed,
unscaled indicator values plus raw Close (spec section 6).  A loaded
dict is assumed non-empty, hence truthy. -/

/-- The offline snapshot (`info.json`). -/
structure Snapshot where
  dates : List String
  cols : List (String × Series)
deriving DecidableEq, Repr

/-- `cached_info[key]`: `none` is a KeyError. -/
def Snapshot.col (snap : Snapshot) (k : String) : Option Series :=
  (snap.cols.find? (fun p => p.1 == k)).map (fun p => p.2)

/-- The runtime value of `self.cached_info`. -/
inductive CachedInfoVal where
  | pynone
  | frame (closeHist : List ℚ)
  | dict (snap : Snapshot)
deriving DecidableEq, Repr

/-- The attributes of a `BaseModel` that the cache operations touch. -/
structure ModelState where
  cached : Option Mat
  cachedInfo : CachedInfoVal
  startDate : String
  endDate : String
deriving DecidableEq, Repr

/-- Modelled from the spec: `trading_funcs.excluded_values`
(trading_funcs.py is not under src/) lists the columns exempt from
numeric scaling — the date columns and the pre-scaled earnings columns
(compare the local list in Models.py:261). -/
def excluded_values : List String := ["Date", "Dates", "earnings dates", "earning diffs"]

/-- Python slice endpoint normalization for `l[a:b]`. -/
def pyNorm (n : ℕ) (i : ℤ) : ℕ :=
  if i < 0 then (max 0 ((n : ℤ) + i)).toNat else min i.toNat n

/-- Python list slice `l[a:b]` (never raises; clamps and wraps negative
endpoints). -/
def pySlice {α : Type} (l : List α) (a b : ℤ) : List α :=
  (l.take (pyNorm l.length b)).drop (pyNorm l.length a)

/-- `np.transpose` of a list of equal-length columns: row `i` collects
entry `i` of each column (the inputs here are rectangular). -/
def transposeMat (cols : Mat) : Mat :=
  match cols with
  | [] => []
  | c :: _ => (List.range c.length).map (fun i => cols.map (fun col => col.getD i none))

/-- models.py:559-564: the sliced snapshot columns for the requested
keys, skipping `excluded_values`; a missing key is a KeyError. -/
def collect_columns (snap : Snapshot) : List String → ℤ → ℤ → Except PyErr Mat
  | [], _, _ => .ok []
  | k :: rest, a, b =>
    if k ∈ excluded_values then collect_columns snap rest a b
    else
      match snap.col k with
      | none => .error .keyError
      | some col =>
        match collect_columns snap rest a b with
        | .error e => .error e
        | .ok cc => .ok (pySlice col a b :: cc)

/-- models.py:573: the new day row
`[self.cached_info[key][i_end] for key in self.information_keys]` — over
ALL information keys, with no excluded filter; a missing key is a
KeyError and an out-of-range index an IndexError. -/
def collect_day (snap : Snapshot) : List String → ℕ → Except PyErr (List Val)
  | [], _ => .ok []
  | k :: rest, i =>
    match snap.col k with
    | none => .error .keyError
    | some col =>
      match col.get? i with
      | none => .error .indexError
      | some v =>
        match collect_day snap rest i with
        | .error e => .error e
        | .ok row => .ok (v :: row)

/-- models.py:571-576: the advance step: `if len(self.cached) != 0`,
look up the end date in the stored `Dates`, build the day row and set
`self.cached = np.concatenate((self.cached[1:], [day_data]))`.
`len(None)` raises TypeError; `list.index` raises ValueError when the
end date is absent; `np.concatenate` raises ValueError when the new row
width differs from the retained rows.  Errors carry the state at the
raise. -/
def offline_advance (keys : List String) (s : ModelState) :
    Except (PyErr × ModelState) ModelState :=
  match s.cached with
  | none => .error (.typeError, s)
  | some m =>
    if m.length = 0 then .ok s
    else
      match s.cachedInfo with
      | .dict snap =>
        match listIdx snap.dates s.endDate with
        | none => .error (.valueError, s)
        | some iEnd =>
          match collect_day snap keys iEnd with
          | .error e => .error (e, s)
          | .ok dayData =>
            if (m.drop 1).all (fun r => r.length == dayData.length) then
              .ok { s with cached := some (m.drop 1 ++ [dayData]) }
            else .error (.valueError, s)
      | .pynone => .error (.typeError, s)
      | .frame _ => .error (.keyError, s)

/-- models.py:543-576 (`update_cached_offline`): when `self.cached_info`
is unset, load the snapshot, check the date range, populate
`self.cached` from the sliced columns and raise RuntimeError if the
populated window is empty; then (in the same call) run the advance step.
`not` applied to a DataFrame raises ValueError in Python. -/
def update_cached_offline (keys : List String) (numDays : ℕ) (file : Snapshot)
    (s : ModelState) : Except (PyErr × ModelState) ModelState :=
  match s.cachedInfo with
  | .frame _ => .error (.valueError, s)
  | .dict _ => offline_advance keys s
  | .pynone =>
    if s.startDate ∈ file.dates then
      if s.endDate ∈ file.dates then
        match listIdx file.dates s.endDate with
        | none => .error (.valueError, s)
        | some endIndex =>
          match collect_columns file keys ((endIndex : ℤ) - (numDays : ℤ)) (endIndex : ℤ) with
          | .error e => .error (e, s)
          | .ok cc =>
            let s1 : ModelState :=
              { s with cached := some (transposeMat cc), cachedInfo := .dict file }
            if (transposeMat cc).length = 0 then .error (.runtimeError, s1)
            else offline_advance keys s1
      else .error (.valueError, s)
    else .error (.valueError, s)

/-! ## Claim C2 -/

/-- Claim C2: an advance of the cache window is atomic: for every
populated window of length `num_days`, a successful call to
`update_cached_offline` leaves `self.cached` with exactly `num_days`
rows — the oldest row dropped and one new row appended — and a call
whose end date is absent from the snapshot `Dates` index fails with
ValueError and leaves the prior state unchanged. -/
theorem offline_advance_atomic (keys : List String) (numDays : ℕ) (file snap : Snapshot)
    (m : Mat) (sd ed : String) (hlen : m.length = numDays) (hpos : 0 < numDays) :
    (∀ s2, update_cached_offline keys numDays file ⟨some m, .dict snap, sd, ed⟩ = .ok s2 →
      ∃ row, s2.cached = some (m.drop 1 ++ [row]) ∧
        (m.drop 1 ++ [row]).length = numDays) ∧
    (ed ∉ snap.dates →
      update_cached_offline keys numDays file ⟨some m, .dict snap, sd, ed⟩ =
        .error (.valueError, ⟨some m, .dict snap, sd, ed⟩)) := by
  constructor
  · intro s2 h
    simp only [update_cached_offline, offline_advance] at h
    rw [if_neg (by omega : ¬ m.length = 0)] at h
    split at h
    · exact absurd h (by simp)
    · split at h
      · exact absurd h (by simp)
      · split at h
        · cases h
          refine ⟨_, rfl, ?_⟩
          simp only [List.length_append, List.length_drop, List.length_singleton]
          omega
        · exact absurd h (by simp)
  · intro hed
    simp only [update_cached_offline, offline_advance]
    rw [if_neg (by omega : ¬ m.length = 0),
      listIdx_eq_none_of_not_mem snap.dates ed hed]

/-- Witness for C2: a populated 2-row window and an end date absent from
the snapshot fail with ValueError and an unchanged state. -/
theorem offline_advance_atomic_witness :
    update_cached_offline ["Close"] 2
      ⟨["a", "b", "c"], [("Close", [some 1, some 2, some 3])]⟩
      ⟨some [[some 1], [some 2]],
        .dict ⟨["a", "b", "c"], [("Close", [some 1, some 2, some 3])]⟩, "a", "zzz"⟩ =
      .error (.valueError,
        ⟨some [[some 1], [some 2]],
          .dict ⟨["a", "b", "c"], [("Close", [some 1, some 2, some 3])]⟩, "a", "zzz"⟩) :=
  (offline_advance_atomic ["Close"] 2
    ⟨["a", "b", "c"], [("Close", [some 1, some 2, some 3])]⟩
    ⟨["a", "b", "c"], [("Close", [some 1, some 2, some 3])]⟩
    [[some 1], [some 2]] "a" "zzz" rfl (by omega)).2 (by decide)

/-! ## Online acquisition (models.py:389-541) -/

/-- Modelled from the spec: `trading_funcs.is_floats` (trading_funcs.py
is not under src/) answers whether a column holds floats; every numeric
Series of this embedding qualifies. -/
def is_floats (_s : Series) : Bool := true

/-- models.py:493-501: scale one column with the persisted parameters
`(min, diff)` — the same affine map as `scale_value`, elementwise. -/
def scaleSeries (md : ℚ × ℚ) (s : Series) : Series :=
  s.map (Option.map (fun v => (v - md.1) / md.2))

/-- The columns assembled by `indicators_past_num_days`
(models.py:408-490) for the pandas-derived indicator keys, before
scaling.  The columns produced by the get_info.py helpers (liquidity
spikes, momentum oscillator, earnings) and the flip columns come from
files outside src/ or are non-numeric; no claim settled here reads
them. -/
def indicators_dict (keys : List String) (closeHist : List ℚ) (numDays : ℕ) :
    List (String × Series) :=
  [("Close", tailFrom numDays (lift closeHist))]
  ++ (if "12-day EMA" ∈ keys then
      [("12-day EMA", tailFrom numDays (lift (ewmMean 12 closeHist)))] else [])
  ++ (if "26-day EMA" ∈ keys then
      [("26-day EMA", tailFrom numDays (lift (ewmMean 26 closeHist)))] else [])
  ++ (if "MACD" ∈ keys then
      [("MACD", tailFrom numDays (lift (macd_series closeHist)))] else [])
  ++ (if "Signal Line" ∈ keys then
      [("Signal Line", signal_line_col numDays closeHist)] else [])
  ++ (if "Histogram" ∈ keys then
      [("Histogram", histogram_col numDays closeHist)] else [])
  ++ (if "200-day EMA" ∈ keys then
      [("200-day EMA", tailFrom numDays (lift (ewmMean 200 closeHist)))] else [])
  ++ (if "Change" ∈ keys then
      [("Change", tailFrom numDays (change_models closeHist numDays))] else [])
  ++ (if "Momentum" ∈ keys then
      [("Momentum", momentum_models closeHist numDays)] else [])
  ++ (if "RSI" ∈ keys then [("RSI", rsi_models closeHist numDays)] else [])
  ++ (if "TRAMA" ∈ keys then [("TRAMA", trama_models closeHist numDays)] else [])

/-- models.py:408-502 (`indicators_past_num_days`): the assembled columns
with every requested non-excluded column scaled by the persisted
parameters (models.py:493-501). -/
def indicators_past_num_days (keys : List String) (scaler : String → ℚ × ℚ)
    (closeHist : List ℚ) (numDays : ℕ) : List (String × Series) :=
  (indicators_dict keys closeHist numDays).map (fun p =>
    if p.1 ∈ keys ∧ p.1 ∉ excluded_values then (p.1, scaleSeries (scaler p.1) p.2) else p)

/-- `stock_data[key]` lookup. -/
def assoc_col (l : List (String × Series)) (k : String) : Option Series :=
  (l.find? (fun p => p.1 == k)).map (fun p => p.2)

/-- models.py:531-541 (`update_cached_online`): select the requested
float columns in key order and transpose into day rows (a key absent
from the dict would be a Python KeyError; the claims settled here only
request keys the dict builds). -/
def update_cached_online (keys : List String) (scaler : String → ℚ × ℚ)
    (closeHist : List ℚ) (numDays : ℕ) : Mat :=
  transposeMat (keys.filterMap (fun k =>
    match assoc_col (indicators_past_num_days keys scaler closeHist numDays) k with
    | some col => if is_floats col then some col else none
    | none => none))

/-! ## Claim C1 -/

/-- Claim C1 (code bug): the online path scales the feature values with
the persisted scaler (models.py:493-501) while the offline path copies
the raw snapshot values and never applies the scaler (models.py:559-576).
For information keys `[Close]`, scaler (min 10, range 10), raw Close
history [15, 15, 15] over dates d1 < d2 < d3, `num_days = 2` and end date
d3, the online window is [[1/2], [1/2]] while the offline window —
populated from the snapshot of the same history — is [[15], [15]]: the
two windows are not elementwise equal. -/
theorem online_offline_windows_diverge :
    update_cached_online ["Close"] (fun _ => (10, 10)) [15, 15, 15] 2 =
      [[some (1 / 2)], [some (1 / 2)]] ∧
    update_cached_offline ["Close"] 2
      ⟨["d1", "d2", "d3"], [("Close", [some 15, some 15, some 15])]⟩
      ⟨none, .pynone, "d1", "d3"⟩ =
      .ok ⟨some [[some 15], [some 15]],
        .dict ⟨["d1", "d2", "d3"], [("Close", [some 15, some 15, some 15])]⟩,
        "d1", "d3"⟩ ∧
    ([[some ((1 : ℚ) / 2)], [some (1 / 2)]] : Mat) ≠ [[some 15], [some 15]] := by
  refine ⟨?_, by rfl, by norm_num⟩
  norm_num +decide [update_cached_online, indicators_past_num_days, indicators_dict,
    scaleSeries, assoc_col, is_floats, excluded_values, tailFrom, lift,
    transposeMat, List.range_succ, List.find?, List.filterMap_cons, List.filterMap_nil,
    beq_self_eq_true, List.getElem?_cons_zero, List.getElem?_cons_succ]

/-! ## get_info_today (models.py:578-631) and predict -/

/-- models.py:603: `type(self.cached_info) is Dict` — `Dict` is
`typing.Dict`, a generic alias; no runtime value has that type, so the
test is False for every value. -/
def type_is_typing_dict (_ci : CachedInfoVal) : Bool := false

/-- models.py:605 calls
`self.update_cached_info_online(self.information_keys)`, but the method
(models.py:504) accepts only `self`; Python raises TypeError at the call
site, before the method body or the assignment runs. -/
def update_cached_info_online_with_arg : Except PyErr CachedInfoVal :=
  .error .typeError

/-- models.py:602-606: the body of the `try` block.  The `.ok` branch is
unreachable because the call always raises TypeError; it is modelled as
storing the fetched history and recomputing the cached window from it
via `update_cached_online` (models.py:531-541). -/
def get_info_today_try (keys : List String) (numDays : ℕ) (scaler : String → ℚ × ℚ)
    (s : ModelState) : Except (PyErr × ModelState) ModelState :=
  if type_is_typing_dict s.cachedInfo then .error (.connectionError, s)
  else
    match update_cached_info_online_with_arg with
    | .error e => .error (e, s)
    | .ok ci =>
      match ci with
      | .frame hist =>
        .ok { s with
              cachedInfo := ci
              cached := some (update_cached_online keys scaler hist numDays) }
      | _ => .ok { s with cachedInfo := ci }

/-- models.py:618-631: after the try/except: RuntimeError when the cache
is still unset, then advance the start and end dates by one day
(`nextDay` models the external datetime arithmetic) and reshape the
cache to (1, 60, width), which numpy accepts only when exactly 60 rows
are retained; the row contents are returned unchanged. -/
def get_info_today_finish (nextDay : String → String) (s : ModelState) :
    Except (PyErr × ModelState) (Option Mat × ModelState) :=
  match s.cached with
  | none => .error (.runtimeError, s)
  | some m =>
    if m.length = 60 then
      .ok (some m, { s with startDate := nextDay s.startDate, endDate := nextDay s.endDate })
    else
      .error (.valueError,
        { s with startDate := nextDay s.startDate, endDate := nextDay s.endDate })

/-- models.py:578-631 (`get_info_today`): returns None when the end date
is not a trading day of the NYSE schedule (the external calendar
collaborator); otherwise runs the online path and falls back to
`update_cached_offline` only on ConnectionError (models.py:607), turning
a ValueError of the offline path into RuntimeError (models.py:611-616);
a DataFrame-typed `cached_info` is reset to None before the fallback
(models.py:609-610). -/
def get_info_today (schedule : List String) (file : Snapshot) (keys : List String)
    (numDays : ℕ) (scaler : String → ℚ × ℚ) (nextDay : String → String)
    (s : ModelState) : Except (PyErr × ModelState) (Option Mat × ModelState) :=
  if s.endDate ∈ schedule then
    match get_info_today_try keys numDays scaler s with
    | .error (.connectionError, s1) =>
      let s2 : ModelState :=
        match s1.cachedInfo with
        | .frame _ => { s1 with cachedInfo := .pynone }
        | _ => s1
      match update_cached_offline keys numDays file s2 with
      | .error (.valueError, s3) => .error (.runtimeError, s3)
      | .error es => .error es
      | .ok s3 => get_info_today_finish nextDay s3
    | .error es => .error es
    | .ok s1 => get_info_today_finish nextDay s1
  else .ok (none, s)

/-! ## Claim C3 -/

/-- Claim C3 (code bug): for every advance through `get_info_today`
whose end date is a scheduled trading day, the online attempt raises
TypeError — models.py:605 passes `self.information_keys` to a method
that takes no arguments — and `except ConnectionError` (models.py:607)
does not catch TypeError, so the error propagates to the caller with the
state unchanged and `update_cached_offline` is never attempted. -/
theorem get_info_today_typeerror (schedule : List String) (file : Snapshot)
    (keys : List String) (numDays : ℕ) (scaler : String → ℚ × ℚ)
    (nextDay : String → String) (s : ModelState) (h : s.endDate ∈ schedule) :
    get_info_today schedule file keys numDays scaler nextDay s =
      .error (.typeError, s) := by
  rw [get_info_today, if_pos h]
  rfl

/-- Witness for C3 at a concrete scheduled trading day. -/
theorem get_info_today_typeerror_witness :
    get_info_today ["2023-06-05"] ⟨[], []⟩ ["Close"] 2 (fun _ => (0, 1)) (fun d => d)
      ⟨none, .pynone, "2023-06-01", "2023-06-05"⟩ =
      .error (.typeError, ⟨none, .pynone, "2023-06-01", "2023-06-05"⟩) :=
  get_info_today_typeerror ["2023-06-05"] ⟨[], []⟩ ["Close"] 2 (fun _ => (0, 1))
    (fun d => d) ⟨none, .pynone, "2023-06-01", "2023-06-05"⟩ (by decide)

/-! ## Claim C10 -/

/-- models.py:633-676 (`predict`): `info is None` selects the cache
path; an explicitly provided info skips it.  The external keras model is
a function parameter, `self.model` its `Option`. -/
def predict_method (model : Option (Mat → ℚ)) (info : Option Mat)
    (schedule : List String) (file : Snapshot) (keys : List String) (numDays : ℕ)
    (scaler : String → ℚ × ℚ) (nextDay : String → String) (s : ModelState) :
    Except (PyErr × ModelState) (ℚ × ModelState) :=
  match info with
  | some i =>
    match model with
    | some f => .ok (f i, s)
    | none => .error (.lookupError, s)
  | none =>
    match get_info_today schedule file keys numDays scaler nextDay s with
    | .error es => .error es
    | .ok (none, s1) => .error (.runtimeError, s1)
    | .ok (some m, s1) =>
      match model with
      | some f => .ok (f m, s1)
      | none => .error (.lookupError, s1)

/-- Models.py:163-271 (`getInfoToday`): the body references `yf`
(Models.py:178) and `datetime` (Models.py:180/185), neither imported in
Models.py, so every call raises NameError before any other effect. -/
def getInfoToday_legacy : Except PyErr (List ℚ) := .error .nameError

/-- Models.py:273-280 (`predict`): `if not info` tests truthiness, so an
empty provided list also takes the acquisition path. -/
def predict_legacy (model : Option (List ℚ → ℚ)) (info : Option (List ℚ)) :
    Except PyErr ℚ :=
  match
    (match info with
     | none => getInfoToday_legacy
     | some l => if l.isEmpty then getInfoToday_legacy else .ok l) with
  | .error e => .error e
  | .ok l =>
    match model with
    | some f => .ok (f l)
    | none => .error .lookupError

/-- Claim C10 counterexample: the claim quantifies over every non-None
provided info.  In Models.py:275 the guard is `if not info`, so the
explicitly provided non-None empty list falls through to the acquisition
path (which raises NameError for its missing imports): LookupError is
not raised even though no model is loaded. -/
theorem predict_empty_info_counterexample :
    predict_legacy none (some []) = .error .nameError ∧
    PyErr.nameError ≠ PyErr.lookupError :=
  ⟨rfl, by decide⟩

/-- Claim C10 (amended): in models.py the guard is `info is None`, so for
every explicitly provided info, a missing model raises LookupError with
the state unchanged and a loaded model returns its prediction on that
info; in Models.py the same holds only for truthy (non-empty) provided
info, because `if not info` sends an empty list to the acquisition
path. -/
theorem predict_amended (f : Mat → ℚ) (g : List ℚ → ℚ) (i : Mat) (l : List ℚ)
    (schedule : List String) (file : Snapshot) (keys : List String) (numDays : ℕ)
    (scaler : String → ℚ × ℚ) (nextDay : String → String) (s : ModelState)
    (hl : l ≠ []) :
    predict_method none (some i) schedule file keys numDays scaler nextDay s =
      .error (.lookupError, s) ∧
    predict_method (some f) (some i) schedule file keys numDays scaler nextDay s =
      .ok (f i, s) ∧
    predict_legacy none (some l) = .error .lookupError ∧
    predict_legacy (some g) (some l) = .ok (g l) := by
  have hne : l.isEmpty = false := by
    cases l with
    | nil => exact absurd rfl hl
    | cons x xs => rfl
  refine ⟨rfl, rfl, ?_, ?_⟩
  · simp [predict_legacy, hne]
  · simp [predict_legacy, hne]

/-- Witness for the amended C10 at concrete inputs. -/
theorem predict_amended_witness :
    predict_method none (some [[some 1]]) [] ⟨[], []⟩ ["Close"] 2 (fun _ => (0, 1))
      (fun d => d) ⟨none, .pynone, "a", "b"⟩ =
      .error (.lookupError, ⟨none, .pynone, "a", "b"⟩) ∧
    predict_method (some (fun _ => 7)) (some [[some 1]]) [] ⟨[], []⟩ ["Close"] 2
      (fun _ => (0, 1)) (fun d => d) ⟨none, .pynone, "a", "b"⟩ =
      .ok (7, ⟨none, .pynone, "a", "b"⟩) ∧
    predict_legacy none (some [1]) = .error .lookupError ∧
    predict_legacy (some (fun _ => 7)) (some [1]) = .ok 7 :=
  predict_amended (fun _ => 7) (fun _ => 7) [[some 1]] [1] [] ⟨[], []⟩ ["Close"] 2
    (fun _ => (0, 1)) (fun d => d) ⟨none, .pynone, "a", "b"⟩ (by simp)

